import Mathlib

/-!
Verification of the clawkit signing engine (src/clawkit/sign_engine.py).

Strings of the Python source are modelled as lists of character codes
(`List Nat`), byte strings as lists of byte values.  Python integers are
modelled as `Nat` where they are provably non-negative and as `Int` where
the source manipulates negative values (the `_mrc` checksum).
-/

namespace Clawkit

set_option maxRecDepth 4000

/-- 32-bit left rotation, from `_de` in sign_engine.py:
`r %= 32; return ((e << r) & 0xFFFFFFFF) | (e >> (32 - r))`. -/
def _de (e r : Nat) : Nat :=
  let r := r % 32
  ((e <<< r) &&& 4294967295) ||| (e >>> (32 - r))

/-- The SM3 initial register `_SM3_IV`. -/
def _SM3_IV : List Nat :=
  [1937774191, 1226093241, 388252375, 3666478592,
   2842636476, 372324522, 3817729613, 2969243214]

/-- Message expansion of `_sm3_compress`: 16 big-endian words from the
block, then `w[16..67]` by the diffusion recurrence, then
`w[68..131] = w[t-68] ^^^ w[t-64]`. -/
def sm3ExpandW (block : List Nat) : List Nat :=
  let w16 := (List.range 16).map (fun t =>
    (((block.getD (4*t) 0) <<< 24) ||| ((block.getD (4*t+1) 0) <<< 16) |||
     ((block.getD (4*t+2) 0) <<< 8) ||| block.getD (4*t+3) 0) &&& 4294967295)
  let w68 := (List.range' 16 52).foldl (fun w t =>
    let a := w.getD (t-16) 0 ^^^ w.getD (t-9) 0 ^^^ _de (w.getD (t-3) 0) 15
    let a := a ^^^ _de a 15 ^^^ _de a 23
    w ++ [(a ^^^ _de (w.getD (t-13) 0) 7 ^^^ w.getD (t-6) 0) &&& 4294967295]) w16
  (List.range' 68 64).foldl (fun w t =>
    w ++ [(w.getD (t-68) 0 ^^^ w.getD (t-64) 0) &&& 4294967295]) w68

/-- One round of the SM3 compression loop (loop body of `_sm3_compress`).
`~v[4] & v[6]` on 32-bit non-negative values is `(0xFFFFFFFF ^^^ v[4]) &&& v[6]`. -/
def sm3Round (w : List Nat) (v : List Nat) (o : Nat) : List Nat :=
  let tj := if o < 16 then 2043430169 else 2055708042
  let c0 := (_de (v.getD 0 0) 12 + v.getD 4 0 + _de tj o) &&& 4294967295
  let c := _de c0 7
  let s := (c ^^^ _de (v.getD 0 0) 12) &&& 4294967295
  let ff := if o < 16 then (v.getD 0 0 ^^^ v.getD 1 0 ^^^ v.getD 2 0) &&& 4294967295
    else ((v.getD 0 0 &&& v.getD 1 0) ||| (v.getD 0 0 &&& v.getD 2 0) |||
          (v.getD 1 0 &&& v.getD 2 0)) &&& 4294967295
  let gg := if o < 16 then (v.getD 4 0 ^^^ v.getD 5 0 ^^^ v.getD 6 0) &&& 4294967295
    else ((v.getD 4 0 &&& v.getD 5 0) |||
          ((4294967295 ^^^ v.getD 4 0) &&& v.getD 6 0)) &&& 4294967295
  let u := (ff + v.getD 3 0 + s + w.getD (o + 68) 0) &&& 4294967295
  let b := (gg + v.getD 7 0 + c + w.getD o 0) &&& 4294967295
  [u, v.getD 0 0, _de (v.getD 1 0) 9, v.getD 2 0,
   (b ^^^ _de b 9 ^^^ _de b 17) &&& 4294967295,
   v.getD 4 0, _de (v.getD 5 0) 19, v.getD 6 0]

/-- `_sm3_compress`: expand the block, run 64 rounds, XOR into the register. -/
def _sm3_compress (reg block : List Nat) : List Nat :=
  let w := sm3ExpandW block
  let v := (List.range 64).foldl (sm3Round w) reg
  (List.range 8).map (fun i => (reg.getD i 0 ^^^ v.getD i 0) &&& 4294967295)

/-- 64-byte chunking `[b[i:i+64] for i in range(0, len(b), 64)]`, with the
`if not chunks: chunks = [[]]` fix-up of the source (an empty input yields
`[[]]`).  `fuel` bounds the recursion; call sites pass `b.length`. -/
def chunks64 : Nat → List Nat → List (List Nat)
  | 0, b => [b]
  | fuel+1, b => if b.length ≤ 64 then [b] else b.take 64 :: chunks64 fuel (b.drop 64)

/-- Big-endian serialization of the eight 32-bit registers to 32 bytes
(the output loops of both `_sm3_hash` and `_ABogus._sm3_sum`, which emit
the same bytes). -/
def sm3RegToBytes (reg : List Nat) : List Nat :=
  (reg.map (fun v =>
    [(v >>> 24) &&& 255, (v >>> 16) &&& 255, (v >>> 8) &&& 255, v &&& 255])).flatten

/-- The 8-byte big-endian bit-length field of `_sm3_hash`
(`for i in range(7, -1, -1): last.append((bit_len >> (8 * i)) & 255)`). -/
def lenBytes8 (bitLen : Nat) : List Nat :=
  [(bitLen >>> 56) &&& 255, (bitLen >>> 48) &&& 255, (bitLen >>> 40) &&& 255,
   (bitLen >>> 32) &&& 255, (bitLen >>> 24) &&& 255, (bitLen >>> 16) &&& 255,
   (bitLen >>> 8) &&& 255, bitLen &&& 255]

/-- The 4-byte big-endian bit-length field of `_ABogus._sm3_sum`
(`for i in range(4): last.append((bit_len >> 8 * (3 - i)) & 255)`). -/
def lenBytes4 (bitLen : Nat) : List Nat :=
  [(bitLen >>> 24) &&& 255, (bitLen >>> 16) &&& 255,
   (bitLen >>> 8) &&& 255, bitLen &&& 255]

/-- `_sm3_hash`: compress all chunks but the last, append `0x80`, pad with
zeros until the length is 56 mod 64, append the 8-byte big-endian bit
length, compress the remaining one or two blocks, serialize. -/
def _sm3_hash (data : List Nat) : List Nat :=
  let size := data.length
  let chunks := chunks64 data.length data
  let reg := chunks.dropLast.foldl _sm3_compress _SM3_IV
  let last := chunks.getLastD []
  let withOne := last ++ [128]
  let lastFull := withOne ++ List.replicate ((56 + 64 - withOne.length % 64) % 64) 0
    ++ lenBytes8 (8 * size)
  let reg2 := (chunks64 lastFull.length lastFull).foldl _sm3_compress reg
  sm3RegToBytes reg2

/-- `_ABogus._sm3_sum`: same chunking, but the final block is padded with
zeros only up to length 60 (`while len(last) < 60`), gets a 4-byte bit
length, and is compressed as a single block (bytes past index 63 of an
over-long final block are ignored by `_sm3_compress`). -/
def _sm3_sum (data : List Nat) : List Nat :=
  let size := data.length
  let chunks := chunks64 data.length data
  let reg := chunks.dropLast.foldl _sm3_compress _SM3_IV
  let last := chunks.getLastD []
  let withOne := last ++ [128]
  let lastFull := withOne ++ List.replicate (60 - withOne.length) 0
    ++ lenBytes4 (8 * size)
  sm3RegToBytes (_sm3_compress reg lastFull)

/-- `_sm3_double`: double SM3 hash. -/
def _sm3_double (data : List Nat) : List Nat :=
  _sm3_hash (_sm3_hash data)

/-- The simultaneous swap `s[i], s[j] = s[j], s[i]` on a Python list. -/
def listSwap (s : List Nat) (i j : Nat) : List Nat :=
  (s.set i (s.getD j 0)).set j (s.getD i 0)

/-- RC4 key schedule (first loop of `_rc4`): scramble the identity
permutation of 0..255 with the key bytes, cyclically. -/
def rc4Ksa (key : List Nat) : List Nat :=
  ((List.range 256).foldl (fun (sj : List Nat × Nat) i =>
    let j := (sj.2 + sj.1.getD i 0 + key.getD (i % key.length) 0) % 256
    (listSwap sj.1 i j, j)) (List.range 256, 0)).1

/-- RC4 pseudo-random generation (second loop of `_rc4`): one keystream
value per plaintext element, XORed into the element code. -/
def rc4Prga : List Nat → Nat → Nat → List Nat → List Nat
  | _, _, _, [] => []
  | s, i, j, p :: rest =>
    let i' := (i + 1) % 256
    let j' := (j + s.getD i' 0) % 256
    let s' := listSwap s i' j'
    (s'.getD ((s'.getD i' 0 + s'.getD j' 0) % 256) 0 ^^^ p) :: rc4Prga s' i' j' rest

/-- `_rc4`: full RC4 over sequences of character codes.  The source
requires a non-empty key (`key[i % len(key)]` divides by the key length). -/
def _rc4 (plaintext key : List Nat) : List Nat :=
  rc4Prga (rc4Ksa key) 0 0 plaintext

/-- The 256-entry `_MRC_TABLE` of sign_engine.py (the standard CRC-32
lookup table for the reversed polynomial 0xEDB88320). -/
def _MRC_TABLE : List Nat :=
  [0, 1996959894, 3993919788, 2567524794, 124634137, 1886057615, 3915621685, 2657392035,
   249268274, 2044508324, 3772115230, 2547177864, 162941995, 2125561021, 3887607047, 2428444049,
   498536548, 1789927666, 4089016648, 2227061214, 450548861, 1843258603, 4107580753, 2211677639,
   325883990, 1684777152, 4251122042, 2321926636, 335633487, 1661365465, 4195302755, 2366115317,
   997073096, 1281953886, 3579855332, 2724688242, 1006888145, 1258607687, 3524101629, 2768942443,
   901097722, 1119000684, 3686517206, 2898065728, 853044451, 1172266101, 3705015759, 2882616665,
   651767980, 1373503546, 3369554304, 3218104598, 565507253, 1454621731, 3485111705, 3099436303,
   671266974, 1594198024, 3322730930, 2970347812, 795835527, 1483230225, 3244367275, 3060149565,
   1994146192, 31158534, 2563907772, 4023717930, 1907459465, 112637215, 2680153253, 3904427059,
   2013776290, 251722036, 2517215374, 3775830040, 2137656763, 141376813, 2439277719, 3865271297,
   1802195444, 476864866, 2238001368, 4066508878, 1812370925, 453092731, 2181625025, 4111451223,
   1706088902, 314042704, 2344532202, 4240017532, 1658658271, 366619977, 2362670323, 4224994405,
   1303535960, 984961486, 2747007092, 3569037538, 1256170817, 1037604311, 2765210733, 3554079995,
   1131014506, 879679996, 2909243462, 3663771856, 1141124467, 855842277, 2852801631, 3708648649,
   1342533948, 654459306, 3188396048, 3373015174, 1466479909, 544179635, 3110523913, 3462522015,
   1591671054, 702138776, 2966460450, 3352799412, 1504918807, 783551873, 3082640443, 3233442989,
   3988292384, 2596254646, 62317068, 1957810842, 3939845945, 2647816111, 81470997, 1943803523,
   3814918930, 2489596804, 225274430, 2053790376, 3826175755, 2466906013, 167816743, 2097651377,
   4027552580, 2265490386, 503444072, 1762050814, 4150417245, 2154129355, 426522225, 1852507879,
   4275313526, 2312317920, 282753626, 1742555852, 4189708143, 2394877945, 397917763, 1622183637,
   3604390888, 2714866558, 953729732, 1340076626, 3518719985, 2797360999, 1068828381, 1219638859,
   3624741850, 2936675148, 906185462, 1090812512, 3747672003, 2825379669, 829329135, 1181335161,
   3412177804, 3160834842, 628085408, 1382605366, 3423369109, 3138078467, 570562233, 1426400815,
   3317316542, 2998733608, 733239954, 1555261956, 3268935591, 3050360625, 752459403, 1541320221,
   2607071920, 3965973030, 1969922972, 40735498, 2617837225, 3943577151, 1913087877, 83908371,
   2512341634, 3803740692, 2075208622, 213261112, 2463272603, 3855990285, 2094854071, 198958881,
   2262029012, 4057260610, 1759359992, 534414190, 2176718541, 4139329115, 1873836001, 414664567,
   2282248934, 4279200368, 1711684554, 285281116, 2405801727, 4167216745, 1634467795, 376229701,
   2685067896, 3608007406, 1308918612, 956543938, 2808555105, 3495958263, 1231636301, 1047427035,
   2932959818, 3654703836, 1088359270, 936918000, 2847714899, 3736837829, 1202900863, 817233897,
   3183342108, 3401237130, 1404277552, 615818150, 3134207493, 3453421203, 1423857449, 601450431,
   3009837614, 3294710456, 1567103746, 711928724, 3020668471, 3272380065, 1510334235, 755167117]

/-- Python bitwise NOT on unbounded integers: `~a = -a - 1`. -/
def pyNot (a : Int) : Int := -a - 1

/-- Python bitwise XOR on unbounded integers (two's-complement semantics),
case-split on signs. -/
def pyXor (a b : Int) : Int :=
  if 0 ≤ a then
    if 0 ≤ b then ((a.toNat ^^^ b.toNat : Nat) : Int)
    else pyNot ((a.toNat ^^^ (pyNot b).toNat : Nat) : Int)
  else
    if 0 ≤ b then pyNot (((pyNot a).toNat ^^^ b.toNat : Nat) : Int)
    else (((pyNot a).toNat ^^^ (pyNot b).toNat : Nat) : Int)

/-- Python bitwise AND on unbounded integers (two's-complement semantics),
case-split on signs. -/
def pyAnd (a b : Int) : Int :=
  if 0 ≤ a then
    if 0 ≤ b then ((a.toNat &&& b.toNat : Nat) : Int)
    else ((a.toNat ^^^ (a.toNat &&& (pyNot b).toNat) : Nat) : Int)
  else
    if 0 ≤ b then ((b.toNat ^^^ (b.toNat &&& (pyNot a).toNat) : Nat) : Int)
    else pyNot ((((pyNot a).toNat ||| (pyNot b).toNat : Nat)) : Int)

/-- The `_rws` helper of `_mrc`: reinterpret as unsigned 32-bit
(`ctypes.c_uint32(num).value`), shift right, then map back through
`(val + (M+1)) % (2*(M+1)) - M - 1` with `M = 0xFFFFFFFF`. -/
def _rws (num : Int) (bit : Nat) : Int :=
  ((((num % 4294967296).toNat >>> bit : Nat) : Int) + 4294967296) % 8589934592
    - 4294967296

/-- One iteration of the `_mrc` loop:
`o = _MRC_TABLE[(o & 255) ^ ord(e[n])] ^ _rws(o, 8)`. -/
def mrcStep (e : List Nat) (o : Int) (n : Nat) : Int :=
  pyXor ((_MRC_TABLE.getD ((pyAnd o 255).toNat ^^^ e.getD n 0) 0 : Nat) : Int)
    (_rws o 8)

/-- The accumulation loop of `_mrc`: 57 iterations starting from `o = -1`. -/
def mrcAcc (e : List Nat) : Int :=
  (List.range 57).foldl (mrcStep e) (-1)

/-- `_mrc`: the CRC32-variant checksum; final transform
`o ^ -1 ^ 3988292384` (3988292384 = 0xEDB88320). -/
def _mrc (e : List Nat) : Int :=
  pyXor (pyXor (mrcAcc e) (-1)) 3988292384

/-- Modelled from the claim text, for comparison with `_mrc`: the same
accumulation but with the final-transform constant 0xED59B63A = 3982079546
that the specification states. -/
def mrcClaimed (e : List Nat) : Int :=
  pyXor (pyXor (mrcAcc e) (-1)) 3982079546

/-- Alphabet `s0` of `_ABOGUS_STR` (65 symbols). -/
def _ABOGUS_S0 : List Nat :=
  [65, 66, 67, 68, 69, 70, 71, 72, 73, 74, 75, 76, 77, 78, 79, 80, 81, 82, 83, 84,
   85, 86, 87, 88, 89, 90, 97, 98, 99, 100, 101, 102, 103, 104, 105, 106, 107, 108,
   109, 110, 111, 112, 113, 114, 115, 116, 117, 118, 119, 120, 121, 122, 48, 49, 50,
   51, 52, 53, 54, 55, 56, 57, 43, 47, 61]

/-- Alphabet `s1` of `_ABOGUS_STR` (65 symbols). -/
def _ABOGUS_S1 : List Nat :=
  [68, 107, 100, 112, 103, 104, 52, 90, 75, 115, 81, 66, 56, 48, 47, 77, 102, 118,
   119, 51, 54, 88, 73, 49, 82, 50, 53, 43, 87, 85, 65, 108, 69, 105, 55, 78, 76, 98,
   111, 113, 89, 84, 79, 80, 117, 122, 109, 70, 106, 74, 110, 114, 121, 120, 57, 72,
   86, 71, 99, 97, 83, 116, 67, 101, 61]

/-- Alphabet `s2` of `_ABOGUS_STR` (65 symbols). -/
def _ABOGUS_S2 : List Nat :=
  [68, 107, 100, 112, 103, 104, 52, 90, 75, 115, 81, 66, 56, 48, 47, 77, 102, 118,
   119, 51, 54, 88, 73, 49, 82, 50, 53, 45, 87, 85, 65, 108, 69, 105, 55, 78, 76, 98,
   111, 113, 89, 84, 79, 80, 117, 122, 109, 70, 106, 74, 110, 114, 121, 120, 57, 72,
   86, 71, 99, 97, 83, 116, 67, 101, 61]

/-- Alphabet `s3` of `_ABOGUS_STR` (64 symbols), used for the user-agent
encoding. -/
def _ABOGUS_S3 : List Nat :=
  [99, 107, 100, 112, 49, 104, 52, 90, 75, 115, 85, 66, 56, 48, 47, 77, 102, 118,
   119, 51, 54, 88, 73, 103, 82, 50, 53, 43, 87, 81, 65, 108, 69, 105, 55, 78, 76, 98,
   111, 113, 89, 84, 79, 80, 117, 122, 109, 70, 106, 74, 110, 114, 121, 120, 57, 72,
   86, 71, 68, 97, 83, 116, 67, 101]

/-- Alphabet `s4` of `_ABOGUS_STR` (64 symbols), used for the final
signature encoding. -/
def _ABOGUS_S4 : List Nat :=
  [68, 107, 100, 112, 103, 104, 50, 90, 109, 115, 81, 66, 56, 48, 47, 77, 102, 118,
   86, 51, 54, 88, 73, 49, 82, 52, 53, 45, 87, 85, 65, 108, 69, 105, 120, 78, 76, 119,
   111, 113, 89, 84, 79, 80, 117, 122, 75, 70, 106, 74, 110, 114, 121, 55, 57, 72, 98,
   71, 99, 97, 83, 116, 67, 101]

/-- `_DEFAULT_BROWSER`, the 64-character fingerprint string
`1536|742|1536|864|0|0|0|0|1536|864|1536|864|1536|742|24|24|Win32`. -/
def _DEFAULT_BROWSER : List Nat :=
  [49, 53, 51, 54, 124, 55, 52, 50, 124, 49, 53, 51, 54, 124, 56, 54, 52, 124, 48,
   124, 48, 124, 48, 124, 48, 124, 49, 53, 51, 54, 124, 56, 54, 52, 124, 49, 53, 51,
   54, 124, 56, 54, 52, 124, 49, 53, 51, 54, 124, 55, 52, 50, 124, 50, 52, 124, 50,
   52, 124, 87, 105, 110, 51, 50]

/-- The 3-to-4 group loop of `_custom_b64`: a 2-character remainder emits
3 output characters (the `j == 0` break), a 1-character remainder emits 2
(the `j == 6` break). -/
def customB64Core (table : List Nat) : List Nat → List Nat
  | [] => []
  | [x] =>
    [table.getD (((x <<< 16) &&& 0xFC0000) >>> 18) 0,
     table.getD (((x <<< 16) &&& 0x03F000) >>> 12) 0]
  | [x, y] =>
    [table.getD ((((x <<< 16) ||| (y <<< 8)) &&& 0xFC0000) >>> 18) 0,
     table.getD ((((x <<< 16) ||| (y <<< 8)) &&& 0x03F000) >>> 12) 0,
     table.getD ((((x <<< 16) ||| (y <<< 8)) &&& 0x0FC0) >>> 6) 0]
  | x :: y :: z :: rest =>
    table.getD ((((x <<< 16) ||| (y <<< 8) ||| z) &&& 0xFC0000) >>> 18) 0 ::
    table.getD ((((x <<< 16) ||| (y <<< 8) ||| z) &&& 0x03F000) >>> 12) 0 ::
    table.getD ((((x <<< 16) ||| (y <<< 8) ||| z) &&& 0x0FC0) >>> 6) 0 ::
    table.getD (((x <<< 16) ||| (y <<< 8) ||| z) &&& 0x3F) 0 ::
    customB64Core table rest

/-- `_custom_b64`: the group loop plus `"=" * ((4 - len(r) % 4) % 4)`
trailing padding (`61` is the code of `=`). -/
def _custom_b64 (s table : List Nat) : List Nat :=
  customB64Core table s ++
    List.replicate ((4 - (customB64Core table s).length % 4) % 4) 61

/-- `_random_list` with the float draw already truncated to the integer
`n = int(r)`: `v = [r, n & 255, n >> 8]`, returning
`[v[1]&b|d, v[1]&c|e, v[2]&b|f, v[2]&c|g]`. -/
def _random_list (n b c d e f g : Nat) : List Nat :=
  [((n &&& 255) &&& b) ||| d, ((n &&& 255) &&& c) ||| e,
   ((n >>> 8) &&& b) ||| f, ((n >>> 8) &&& c) ||| g]

/-- `_gen_string_1`: three `_random_list` draws (12 characters), with the
three integer draws passed explicitly. -/
def _gen_string_1 (n1 n2 n3 : Nat) : List Nat :=
  _random_list n1 170 85 1 2 5 (45 &&& 170) ++ _random_list n2 170 85 1 0 0 0 ++
    _random_list n3 170 85 1 0 5 0

/-- The user-agent hash cached by `_ABogus.__init__`: RC4 with the 3-byte
key `\u0000\u0001\u000e`, custom base64 with alphabet `s3`, then the
inlined SM3. -/
def abogus_ua_code (ua : List Nat) : List Nat :=
  _sm3_sum (_custom_b64 (_rc4 ua [0, 1, 14]) _ABOGUS_S3)

/-- The fixed 44-entry record `a` of `_ABogus.sign`.  The source entries
`int(t / 256 / 256 / 256 / 256) >> 0` divide by 2^32 via float division,
which is exact for values below 2^53; they are modelled as `t >>> 32`. -/
def abogusRecord (params_code method_code ua_code : List Nat)
    (startTime endTime : Nat) : List Nat :=
  [44, (endTime >>> 24) &&& 255, 0, 0, 0, 0,
   24, params_code.getD 21 0, method_code.getD 21 0, 0,
   ua_code.getD 23 0, (endTime >>> 16) &&& 255, 0, 0, 0, 1,
   0, 239, params_code.getD 22 0, method_code.getD 22 0,
   ua_code.getD 24 0, (endTime >>> 8) &&& 255, 0, 0, 0, 0,
   (endTime >>> 0) &&& 255, 0, 0, 14,
   (startTime >>> 24) &&& 255, (startTime >>> 16) &&& 255,
   0, (startTime >>> 8) &&& 255, (startTime >>> 0) &&& 255,
   3, endTime >>> 32, 1,
   startTime >>> 32, 1,
   _DEFAULT_BROWSER.length, 0, 0, 0]

/-- The signed buffer of `_ABogus.sign`: the 44-entry record, the browser
fingerprint characters, and the XOR checksum of the record. -/
def abogusBuffer (params_code method_code ua_code : List Nat)
    (startTime endTime : Nat) : List Nat :=
  abogusRecord params_code method_code ua_code startTime endTime ++
    _DEFAULT_BROWSER ++
    [(abogusRecord params_code method_code ua_code startTime endTime).foldl
      (fun acc i => acc ^^^ i) 0]

/-- `_ABogus.sign` with clock and random draws passed explicitly:
`end_time` is `start_time` plus the `randint(4, 8)` jitter, and
`n1, n2, n3` are the three `_gen_string_1` draws.  RC4-encrypt the buffer
with key `"y"`, prepend the 12-character magic block, and encode with
alphabet `s4`. -/
def abogus_sign (ua params method : List Nat)
    (startTime endTime n1 n2 n3 : Nat) : List Nat :=
  _custom_b64
    (_gen_string_1 n1 n2 n3 ++
      _rc4 (abogusBuffer (_sm3_double (params ++ [99, 117, 115]))
        (_sm3_double (method ++ [99, 117, 115])) (abogus_ua_code ua)
        startTime endTime) [121])
    _ABOGUS_S4

/-- The 65-symbol alphabet `d` of `_xhs_h`:
`A4NjFqYu5wPHsO0XTdDgMa2r1ZQocVte9UJBvk6/7=yRnhISGKblCWi+LpfE8xzm3`. -/
def _XHS_H_TABLE : List Nat :=
  [65, 52, 78, 106, 70, 113, 89, 117, 53, 119, 80, 72, 115, 79, 48, 88, 84, 100,
   68, 103, 77, 97, 50, 114, 49, 90, 81, 111, 99, 86, 116, 101, 57, 85, 74, 66,
   118, 107, 54, 47, 55, 61, 121, 82, 110, 104, 73, 83, 71, 75, 98, 108, 67, 87,
   105, 43, 76, 112, 102, 69, 56, 120, 122, 109, 51]

/-- The character codes of the lowercase hex digits `0123456789abcdef`. -/
def hexLowerCodes : List Nat :=
  [48, 49, 50, 51, 52, 53, 54, 55, 56, 57, 97, 98, 99, 100, 101, 102]

/-- One 3-character group of `_xhs_h` over the codes `o`, `g`, `h`:
`v = o >> 2`, `x = ((o & 3) << 4) | (g >> 4)`,
`p = ((15 & g) << 2) | (h >> 6)`, `b = h & 63 if h else 64`, and
`if not g: p = b = 64`; emit `d[v] + d[x] + d[p] + d[b]`. -/
def xhsHG (o g h : Nat) : List Nat :=
  [_XHS_H_TABLE.getD (o >>> 2) 0,
   _XHS_H_TABLE.getD (((o &&& 3) <<< 4) ||| (g >>> 4)) 0,
   _XHS_H_TABLE.getD (if g = 0 then 64 else ((15 &&& g) <<< 2) ||| (h >>> 6)) 0,
   _XHS_H_TABLE.getD (if g = 0 then 64
     else if h ≠ 0 then h &&& 63 else 64) 0]

/-- The group at input offset `i` of `_xhs_h`, with the source guards
`ord(n[i+1]) if i + 1 < 32 else 0` and `ord(n[i+2]) if i + 2 < 32 else 0`. -/
def xhsHGroup (n : List Nat) (i : Nat) : List Nat :=
  xhsHG (n.getD i 0) (if i + 1 < 32 then n.getD (i+1) 0 else 0)
    (if i + 2 < 32 then n.getD (i+2) 0 else 0)

/-- `_xhs_h`: eleven 3-character groups over offsets `0, 3, ..., 30` of a
32-character digest (the last group reads only 2 characters). -/
def _xhs_h (n : List Nat) : List Nat :=
  ((List.range 11).map (fun k => xhsHGroup n (3 * k))).flatten

/-- The base-36 alphabet `0123456789ABCDEFGHIJKLMNOPQRSTUVWXYZ` of
`get_xhs_search_id`. -/
def B36_ALPHABET : List Nat :=
  [48, 49, 50, 51, 52, 53, 54, 55, 56, 57, 65, 66, 67, 68, 69, 70, 71, 72, 73,
   74, 75, 76, 77, 78, 79, 80, 81, 82, 83, 84, 85, 86, 87, 88, 89, 90]

/-- The `while num:` rendering loop of `get_xhs_search_id`, prepending
`alphabet[num % 36]` while dividing by 36.  `fuel` bounds the recursion;
call sites pass the number itself. -/
def b36go : Nat → Nat → List Nat
  | 0, _ => []
  | _ + 1, 0 => []
  | fuel + 1, n + 1 =>
    b36go fuel ((n + 1) / 36) ++ [B36_ALPHABET.getD ((n + 1) % 36) 0]

/-- `get_xhs_search_id` with the clock reading `ms` and the random draw
`t = int(random.uniform(0, 2147483646))` passed explicitly:
render `(ms << 64) + t` in base 36 (zero renders as `"0"`). -/
def get_xhs_search_id (ms t : Nat) : List Nat :=
  if (ms <<< 64) + t = 0 then [48]
  else b36go ((ms <<< 64) + t) ((ms <<< 64) + t)

/-- Decoding a base-36 string back to an integer (the inverse direction
named by the claim). -/
def b36Decode (s : List Nat) : Nat :=
  s.foldl (fun a c => a * 36 + B36_ALPHABET.indexOf c) 0

/-- Models Python `hashlib.md5` (RFC 1321): the 64 sine-derived round
constants. -/
def MD5_K : List Nat :=
  [3614090360, 3905402710, 606105819, 3250441966,
   4118548399, 1200080426, 2821735955, 4249261313,
   1770035416, 2336552879, 4294925233, 2304563134,
   1804603682, 4254626195, 2792965006, 1236535329,
   4129170786, 3225465664, 643717713, 3921069994,
   3593408605, 38016083, 3634488961, 3889429448,
   568446438, 3275163606, 4107603335, 1163531501,
   2850285829, 4243563512, 1735328473, 2368359562,
   4294588738, 2272392833, 1839030562, 4259657740,
   2763975236, 1272893353, 4139469664, 3200236656,
   681279174, 3936430074, 3572445317, 76029189,
   3654602809, 3873151461, 530742520, 3299628645,
   4096336452, 1126891415, 2878612391, 4237533241,
   1700485571, 2399980690, 4293915773, 2240044497,
   1873313359, 4264355552, 2734768916, 1309151649,
   4149444226, 3174756917, 718787259, 3951481745]

/-- Models Python `hashlib.md5` (RFC 1321): the per-round rotation
amounts. -/
def MD5_S : List Nat :=
  [7, 12, 17, 22, 7, 12, 17, 22, 7, 12, 17, 22, 7, 12, 17, 22, 5, 9, 14, 20, 5, 9, 14, 20, 5, 9, 14, 20, 5, 9, 14, 20,
   4, 11, 16, 23, 4, 11, 16, 23, 4, 11, 16, 23, 4, 11, 16, 23, 6, 10, 15, 21, 6, 10, 15, 21, 6, 10, 15, 21, 6, 10, 15, 21]

/-- MD5 round function, switching at rounds 16/32/48; `~x` on 32-bit
values is `0xFFFFFFFF ^^^ x`. -/
def md5F (i b c d : Nat) : Nat :=
  if i < 16 then (b &&& c) ||| ((4294967295 ^^^ b) &&& d)
  else if i < 32 then (d &&& b) ||| ((4294967295 ^^^ d) &&& c)
  else if i < 48 then b ^^^ c ^^^ d
  else c ^^^ (b ||| (4294967295 ^^^ d))

/-- MD5 message-word index per round. -/
def md5G (i : Nat) : Nat :=
  if i < 16 then i
  else if i < 32 then (5 * i + 1) % 16
  else if i < 48 then (3 * i + 5) % 16
  else (7 * i) % 16

/-- The 16 little-endian 32-bit words of one MD5 block. -/
def md5Words (block : List Nat) : List Nat :=
  (List.range 16).map (fun j =>
    block.getD (4*j) 0 ||| (block.getD (4*j+1) 0 <<< 8) |||
    (block.getD (4*j+2) 0 <<< 16) ||| (block.getD (4*j+3) 0 <<< 24))

/-- One MD5 round on the state `[A, B, C, D]`. -/
def md5Round (m : List Nat) (st : List Nat) (i : Nat) : List Nat :=
  [st.getD 3 0,
   (st.getD 1 0 + _de ((md5F i (st.getD 1 0) (st.getD 2 0) (st.getD 3 0) +
     st.getD 0 0 + MD5_K.getD i 0 + m.getD (md5G i) 0) &&& 4294967295)
     (MD5_S.getD i 0)) &&& 4294967295,
   st.getD 1 0, st.getD 2 0]

/-- One MD5 block: 64 rounds, then add into the incoming state. -/
def md5Block (st : List Nat) (block : List Nat) : List Nat :=
  (List.range 4).map (fun i =>
    (st.getD i 0 + ((List.range 64).foldl (md5Round (md5Words block)) st).getD i 0)
      &&& 4294967295)

/-- The 8-byte little-endian bit-length field of MD5 padding. -/
def lenLE8 (bl : Nat) : List Nat :=
  [bl &&& 255, (bl >>> 8) &&& 255, (bl >>> 16) &&& 255, (bl >>> 24) &&& 255,
   (bl >>> 32) &&& 255, (bl >>> 40) &&& 255, (bl >>> 48) &&& 255, (bl >>> 56) &&& 255]

/-- MD5 padding: `0x80`, zeros to 56 mod 64, the bit length modulo 2^64
little-endian. -/
def md5Pad (msg : List Nat) : List Nat :=
  msg ++ [128] ++ List.replicate ((56 + 64 - (msg.length + 1) % 64) % 64) 0 ++
    lenLE8 ((8 * msg.length) % 18446744073709551616)

/-- Models Python `hashlib.md5(...).digest()`: the 16 output bytes. -/
def md5Bytes (msg : List Nat) : List Nat :=
  (((List.range ((md5Pad msg).length / 64)).foldl
    (fun st i => md5Block st (((md5Pad msg).drop (64 * i)).take 64))
    [1732584193, 4023233417, 2562383102, 271733878]).map
    (fun v => [v &&& 255, (v >>> 8) &&& 255, (v >>> 16) &&& 255, (v >>> 24) &&& 255])).flatten

/-- Models Python `hashlib.md5(...).hexdigest()`: 32 lowercase hex
characters. -/
def md5Hex (msg : List Nat) : List Nat :=
  ((md5Bytes msg).map (fun b =>
    [hexLowerCodes.getD ((b >>> 4) &&& 15) 0, hexLowerCodes.getD (b &&& 15) 0])).flatten

/-- Models Python `binascii.crc32` (standard CRC-32; the `_MRC_TABLE`
literal is exactly the standard table). -/
def crc32 (bytes : List Nat) : Nat :=
  (bytes.foldl (fun c b => _MRC_TABLE.getD ((c ^^^ b) &&& 255) 0 ^^^ (c >>> 8))
    4294967295) ^^^ 4294967295

/-- The `while`-style rendering loop of `hex(n)[2:]` (lowercase hex
digits, most significant first).  `fuel` bounds the recursion. -/
def natHexGo : Nat → Nat → List Nat
  | 0, _ => []
  | _ + 1, 0 => []
  | fuel + 1, n + 1 => natHexGo fuel ((n + 1) / 16) ++ [hexLowerCodes.getD ((n + 1) % 16) 0]

/-- Models Python `hex(n)[2:]` for `n ≥ 0`; `hex(0)[2:]` is `"0"`. -/
def natHex (n : Nat) : List Nat :=
  if n = 0 then [48] else natHexGo n n

/-- Decimal rendering loop of `str(n)`. -/
def natDecGo : Nat → Nat → List Nat
  | 0, _ => []
  | _ + 1, 0 => []
  | fuel + 1, n + 1 => natDecGo fuel ((n + 1) / 10) ++ [48 + (n + 1) % 10]

/-- Models Python `str(n)` for a non-negative integer. -/
def natDecimal (n : Nat) : List Nat :=
  if n = 0 then [48] else natDecGo n n

/-- The string `d` of `get_xhs_cookies`: hex timestamp, 30 random
alphanumeric characters (passed explicitly), and the literal `"50000"`. -/
def xhsCookieD (ms : Nat) (randChars : List Nat) : List Nat :=
  natHex ms ++ randChars ++ [53, 48, 48, 48, 48]

/-- The device token of `get_xhs_cookies`:
`(d + str(crc32(d.encode())))[:52]`. -/
def xhsCookieToken (ms : Nat) (randChars : List Nat) : List Nat :=
  (xhsCookieD ms randChars ++ natDecimal (crc32 (xhsCookieD ms randChars))).take 52

/-- `get_xhs_cookies` with the clock reading and the 30 random characters
passed explicitly: the device token `a1` and its MD5 hex digest `webId`. -/
def get_xhs_cookies (ms : Nat) (randChars : List Nat) : List Nat × List Nat :=
  (xhsCookieToken ms randChars, md5Hex (xhsCookieToken ms randChars))

/-- The characters `urllib.parse.quote` leaves unescaped under
`safe="~()*!.'"`: ASCII letters, digits, underscore, dot, hyphen, tilde,
parentheses, asterisk, exclamation mark, and the apostrophe (code 39). -/
def XHS_SAFE_CODES : List Nat :=
  [65, 66, 67, 68, 69, 70, 71, 72, 73, 74, 75, 76, 77, 78, 79, 80, 81, 82, 83,
   84, 85, 86, 87, 88, 89, 90, 97, 98, 99, 100, 101, 102, 103, 104, 105, 106,
   107, 108, 109, 110, 111, 112, 113, 114, 115, 116, 117, 118, 119, 120, 121,
   122, 48, 49, 50, 51, 52, 53, 54, 55, 56, 57, 95, 46, 45, 126, 40, 41, 42, 33, 39]

/-- The character codes of the uppercase hex digits `0123456789ABCDEF`
(percent-escapes use uppercase hex). -/
def hexUpperCodes : List Nat :=
  [48, 49, 50, 51, 52, 53, 54, 55, 56, 57, 65, 66, 67, 68, 69, 70]

/-- One character of `urllib.parse.quote` output on an ASCII input: safe
characters pass through, others become `%XX`. -/
def quoteChar (c : Nat) : List Nat :=
  if c ∈ XHS_SAFE_CODES then [c]
  else [37, hexUpperCodes.getD ((c >>> 4) &&& 15) 0, hexUpperCodes.getD (c &&& 15) 0]

/-- Models `urllib.parse.quote(e, safe="~()*!.'")` on ASCII input (every
call site here passes pure-ASCII JSON text; non-ASCII text would first be
UTF-8 expanded). -/
def _quote (s : List Nat) : List Nat :=
  (s.map quoteChar).flatten

/-- Value of a hex-digit character (`int(ch, 16)` for chars `0-9A-Fa-f`). -/
def hexVal (c : Nat) : Nat :=
  if c ≤ 57 then c - 48 else if c ≤ 70 then c - 55 else c - 87

/-- The percent-walk of `_encode_utf8`: each `%XX` escape becomes one
byte, each literal character its code point. -/
def encodeUtf8Walk : List Nat → List Nat
  | [] => []
  | c :: rest =>
    if c = 37 then
      match rest with
      | h1 :: h2 :: rest2 => (hexVal h1 * 16 + hexVal h2) :: encodeUtf8Walk rest2
      | rest2 => c :: encodeUtf8Walk rest2
    else c :: encodeUtf8Walk rest

/-- `_encode_utf8`: percent-encode, then convert the encoded form to a
byte array. -/
def _encode_utf8 (e : List Nat) : List Nat :=
  encodeUtf8Walk (_quote e)

/-- The 64-symbol `_XHS_B64_TABLE`
`ZmserbBoHQtNP+wOcza/LpngG8yJq42KWYj0DSfdikx3VT16IlUAFM97hECvuRX5`. -/
def _XHS_B64_TABLE : List Nat :=
  [90, 109, 115, 101, 114, 98, 66, 111, 72, 81, 116, 78, 80, 43, 119, 79, 99,
   122, 97, 47, 76, 112, 110, 103, 71, 56, 121, 74, 113, 52, 50, 75, 87, 89,
   106, 48, 68, 83, 102, 100, 105, 107, 120, 51, 86, 84, 49, 54, 73, 108, 85,
   65, 70, 77, 57, 55, 104, 69, 67, 118, 117, 82, 88, 53]

/-- `_xhs_b64_encode`: RFC-4648-shaped base64 over the bespoke alphabet,
with standard `=` padding; a 1-byte remainder emits 2 characters and
`==`, a 2-byte remainder 3 characters and `=`. -/
def _xhs_b64_encode : List Nat → List Nat
  | [] => []
  | [b] =>
    [_XHS_B64_TABLE.getD (b >>> 2) 0, _XHS_B64_TABLE.getD ((b <<< 4) &&& 63) 0,
     61, 61]
  | [b1, b2] =>
    [_XHS_B64_TABLE.getD (((b1 <<< 8) + b2) >>> 10) 0,
     _XHS_B64_TABLE.getD (63 &&& (((b1 <<< 8) + b2) >>> 4)) 0,
     _XHS_B64_TABLE.getD ((((b1 <<< 8) + b2) <<< 2) &&& 63) 0, 61]
  | b1 :: b2 :: b3 :: rest =>
    _XHS_B64_TABLE.getD
      (63 &&& (((16711680 &&& (b1 <<< 16)) + ((b2 <<< 8) &&& 65280) + (b3 &&& 255)) >>> 18)) 0 ::
    _XHS_B64_TABLE.getD
      (63 &&& (((16711680 &&& (b1 <<< 16)) + ((b2 <<< 8) &&& 65280) + (b3 &&& 255)) >>> 12)) 0 ::
    _XHS_B64_TABLE.getD
      ((((16711680 &&& (b1 <<< 16)) + ((b2 <<< 8) &&& 65280) + (b3 &&& 255)) >>> 6) &&& 63) 0 ::
    _XHS_B64_TABLE.getD
      (((16711680 &&& (b1 <<< 16)) + ((b2 <<< 8) &&& 65280) + (b3 &&& 255)) &&& 63) 0 ::
    _xhs_b64_encode rest

/-- Index of a character in the bespoke base64 alphabet (used only to
state recoverability of `x-s-common`). -/
def xhsB64Idx (c : Nat) : Nat :=
  _XHS_B64_TABLE.indexOf c

/-- Inverse of `_xhs_b64_encode`, reversing the custom base64 (defined
here to state that `x-s-common` is recoverable; the repository has no
decoding path). -/
def _xhs_b64_decode : List Nat → List Nat
  | c1 :: c2 :: c3 :: c4 :: rest =>
    if c3 = 61 then [xhsB64Idx c1 * 4 + xhsB64Idx c2 / 16]
    else if c4 = 61 then
      [xhsB64Idx c1 * 4 + xhsB64Idx c2 / 16,
       (xhsB64Idx c2 % 16) * 16 + xhsB64Idx c3 / 4]
    else
      (xhsB64Idx c1 * 4 + xhsB64Idx c2 / 16) ::
      ((xhsB64Idx c2 % 16) * 16 + xhsB64Idx c3 / 4) ::
      ((xhsB64Idx c3 % 4) * 64 + xhsB64Idx c4) ::
      _xhs_b64_decode rest
  | _ => []

/-- Models Python `str(i)` for an `int` that may be negative. -/
def intDecimal (i : Int) : List Nat :=
  if i < 0 then 45 :: natDecimal (-i).toNat else natDecimal i.toNat

/-- The URI `/api/sns/web/v1/feed` fixed by the claim. -/
def XHS_URI : List Nat :=
  [47, 97, 112, 105, 47, 115, 110, 115, 47, 119, 101, 98, 47, 118, 49, 47, 102,
   101, 101, 100]

/-- Codes of the fixed JSON segment from the opening brace through the
opening quote of the `x6` value: compact `json.dumps` of the `common`
record of `sign_xiaohongshu` with `a1 = b1 = ""`, keys in insertion order
`s0, s1, x0, ..., x10`. -/
def JSON_HEAD : List Nat :=
  [123, 34, 115, 48, 34, 58, 53, 44, 34, 115, 49, 34, 58, 34, 34, 44, 34, 120,
   48, 34, 58, 34, 49, 34, 44, 34, 120, 49, 34, 58, 34, 51, 46, 50, 46, 48, 34,
   44, 34, 120, 50, 34, 58, 34, 87, 105, 110, 100, 111, 119, 115, 34, 44, 34,
   120, 51, 34, 58, 34, 120, 104, 115, 45, 112, 99, 45, 119, 101, 98, 34, 44,
   34, 120, 52, 34, 58, 34, 50, 46, 51, 46, 49, 34, 44, 34, 120, 53, 34, 58,
   34, 34, 44, 34, 120, 54, 34, 58, 34]

/-- Codes of the JSON segment between the `x6` and `x7` values. -/
def JSON_MID1 : List Nat :=
  [34, 44, 34, 120, 55, 34, 58, 34]

/-- Codes of the JSON segment between the `x7` value and the `x9` value
(it closes `x7`, emits the empty `x8`, and opens the numeric `x9` field). -/
def JSON_MID2 : List Nat :=
  [34, 44, 34, 120, 56, 34, 58, 34, 34, 44, 34, 120, 57, 34, 58]

/-- Codes of the final JSON segment after the `x9` value. -/
def JSON_TAIL : List Nat :=
  [44, 34, 120, 49, 48, 34, 58, 49, 125]

/-- The compact JSON serialization of the `common` record of
`sign_xiaohongshu` for `a1 = b1 = ""`, as a function of the `x6` and `x7`
values (both contain no JSON-escaped characters, so `json.dumps` emits
them verbatim); `x9` is `_mrc(x_t + x_s)`. -/
def xhsCommonJson (xt xs : List Nat) : List Nat :=
  JSON_HEAD ++ xt ++ JSON_MID1 ++ xs ++ JSON_MID2 ++
    intDecimal (_mrc (xt ++ xs)) ++ JSON_TAIL

/-- The `raw` string of `sign_xiaohongshu` for uri `/api/sns/web/v1/feed`
and no body: `f"{v}test{uri}"`. -/
def xhsRaw (v : Nat) : List Nat :=
  natDecimal v ++ [116, 101, 115, 116] ++ XHS_URI

/-- The `x-s` value of `sign_xiaohongshu`: `_xhs_h` of the MD5 hex digest
of the raw string. -/
def xhs_xs (v : Nat) : List Nat :=
  _xhs_h (md5Hex (xhsRaw v))

/-- The `x-s-common` value of `sign_xiaohongshu` for `a1 = b1 = ""`. -/
def xhs_common (v : Nat) : List Nat :=
  _xhs_b64_encode (_encode_utf8 (xhsCommonJson (natDecimal v) (xhs_xs v)))

/-- `sign_xiaohongshu` for uri `/api/sns/web/v1/feed`, no body and
`a1 = b1 = ""`, with the millisecond clock reading `v` passed explicitly;
returns `(x-s, x-t, x-s-common)`. -/
def sign_xiaohongshu (v : Nat) : List Nat × List Nat × List Nat :=
  (xhs_xs v, natDecimal v, xhs_common v)

lemma chunks64_of_le (fuel : Nat) (b : List Nat) (h : b.length ≤ 64) :
    chunks64 fuel b = [b] := by
  cases fuel <;> simp [chunks64, h]

lemma chunks64_getLastD_length_le (fuel : Nat) (b d : List Nat)
    (hf : b.length ≤ fuel) (h1 : b.length % 64 ≤ 55)
    (h2 : b.length % 64 ≠ 0 ∨ b.length = 0) :
    ((chunks64 fuel b).getLastD d).length ≤ 55 := by
  induction fuel generalizing b d with
  | zero =>
    have hb : b = [] := List.eq_nil_of_length_eq_zero (by omega)
    subst hb
    simp [chunks64]
  | succ fuel ih =>
    by_cases h : b.length ≤ 64
    · simp only [chunks64, h, if_pos, List.getLastD_cons, List.getLastD_nil]
      omega
    · simp only [chunks64, h, if_neg, not_false_iff, List.getLastD_cons]
      have hd : (b.drop 64).length = b.length - 64 := List.length_drop 64 b
      apply ih (b.drop 64) (b.take 64) <;> omega

lemma lenBytes8_eq_of_lt (bl : Nat) (h : bl < 4294967296) :
    lenBytes8 bl = 0 :: 0 :: 0 :: 0 :: lenBytes4 bl := by
  have h1 : bl >>> 56 = 0 := by
    rw [Nat.shiftRight_eq_div_pow]; exact Nat.div_eq_of_lt (by omega)
  have h2 : bl >>> 48 = 0 := by
    rw [Nat.shiftRight_eq_div_pow]; exact Nat.div_eq_of_lt (by omega)
  have h3 : bl >>> 40 = 0 := by
    rw [Nat.shiftRight_eq_div_pow]; exact Nat.div_eq_of_lt (by omega)
  have h4 : bl >>> 32 = 0 := by
    rw [Nat.shiftRight_eq_div_pow]; exact Nat.div_eq_of_lt (by omega)
  simp [lenBytes8, lenBytes4, h1, h2, h3, h4]

lemma sm3_final_block_eq (reg last : List Nat) (size : Nat)
    (hL : last.length ≤ 55) (h3 : 8 * size < 4294967296) :
    sm3RegToBytes (_sm3_compress reg
      ((last ++ [128]) ++ List.replicate (60 - (last ++ [128]).length) 0
        ++ lenBytes4 (8 * size)))
    = sm3RegToBytes ((chunks64
        ((last ++ [128]) ++ List.replicate ((56 + 64 - (last ++ [128]).length % 64) % 64) 0
          ++ lenBytes8 (8 * size)).length
        ((last ++ [128]) ++ List.replicate ((56 + 64 - (last ++ [128]).length % 64) % 64) 0
          ++ lenBytes8 (8 * size))).foldl _sm3_compress reg) := by
  set L := last.length with hLdef
  have hone : (last ++ [128]).length = L + 1 := by simp
  rw [hone]
  have hz : (56 + 64 - (L + 1) % 64) % 64 = 55 - L := by omega
  have hz2 : 60 - (L + 1) = 59 - L := by omega
  rw [hz, hz2, lenBytes8_eq_of_lt _ h3]
  have hrep : List.replicate (59 - L) (0 : Nat) =
      List.replicate (55 - L) 0 ++ List.replicate 4 0 := by
    rw [← List.replicate_add]
    congr 1
    omega
  have hblocks : (last ++ [128]) ++ List.replicate (59 - L) 0 ++ lenBytes4 (8 * size)
      = (last ++ [128]) ++ List.replicate (55 - L) 0 ++
        (0 :: 0 :: 0 :: 0 :: lenBytes4 (8 * size)) := by
    rw [hrep]
    simp [List.append_assoc, List.replicate]
  rw [← hblocks]
  have hlen : ((last ++ [128]) ++ List.replicate (59 - L) 0 ++
      lenBytes4 (8 * size)).length ≤ 64 := by
    simp [lenBytes4]
    omega
  rw [chunks64_of_le _ _ hlen]
  rfl

/-- C2 (amended): `_sm3_hash` and `_ABogus._sm3_sum` agree exactly on
messages whose final chunk is at most 55 bytes — length `L` with `L = 0`
or `L % 64` in `[1, 55]` — and whose bit length fits the 4-byte field.
For `L % 64` in `[56, 63]` or positive multiples of 64 the two differ
(see the counterexample). -/
theorem C2_sm3_sum_agrees_on_short_final_chunk (data : List Nat)
    (h1 : data.length % 64 ≤ 55) (h2 : data.length % 64 ≠ 0 ∨ data.length = 0)
    (h3 : 8 * data.length < 4294967296) :
    _sm3_sum data = _sm3_hash data := by
  have hL : ((chunks64 data.length data).getLastD []).length ≤ 55 :=
    chunks64_getLastD_length_le data.length data [] le_rfl h1 h2
  exact sm3_final_block_eq ((chunks64 data.length data).dropLast.foldl _sm3_compress _SM3_IV)
    ((chunks64 data.length data).getLastD []) data.length hL h3

/-- C2 counterexample: on the 56-byte all-zero message the two SM3
routines disagree (the claim asserts they agree on every byte sequence). -/
theorem C2_counterexample_56_zero_bytes :
    _sm3_sum (List.replicate 56 0) ≠ _sm3_hash (List.replicate 56 0) := by
  decide

/-- Witness for the amended C2 theorem at the concrete input `[1, 2, 3]`. -/
theorem C2_witness :
    ([1, 2, 3] : List Nat).length % 64 ≤ 55 ∧
    _sm3_sum [1, 2, 3] = _sm3_hash [1, 2, 3] :=
  ⟨by decide, C2_sm3_sum_agrees_on_short_final_chunk [1, 2, 3] (by decide)
    (by decide) (by decide)⟩

lemma getD_lt_of_forall (s : List Nat) (i : Nat) (h : ∀ x ∈ s, x < 256) :
    s.getD i 0 < 256 := by
  by_cases hi : i < s.length
  · rw [List.getD_eq_getElem s 0 hi]
    exact h _ (List.getElem_mem hi)
  · rw [List.getD_eq_default s 0 (by omega)]
    omega

lemma listSwap_forall_lt {s : List Nat} (i j : Nat) (h : ∀ x ∈ s, x < 256) :
    ∀ x ∈ listSwap s i j, x < 256 := by
  intro x hx
  unfold listSwap at hx
  rcases List.mem_or_eq_of_mem_set hx with hx | rfl
  · rcases List.mem_or_eq_of_mem_set hx with hx | rfl
    · exact h x hx
    · exact getD_lt_of_forall s j h
  · exact getD_lt_of_forall s i h

lemma ksaFold_forall_lt (key : List Nat) (l : List Nat) :
    ∀ (s : List Nat) (j : Nat), (∀ x ∈ s, x < 256) →
    ∀ x ∈ (l.foldl (fun (sj : List Nat × Nat) i =>
      let j' := (sj.2 + sj.1.getD i 0 + key.getD (i % key.length) 0) % 256
      (listSwap sj.1 i j', j')) (s, j)).1, x < 256 := by
  induction l with
  | nil => intro s j h; exact h
  | cons a l ih =>
    intro s j h
    simp only [List.foldl_cons]
    exact ih _ _ (listSwap_forall_lt _ _ h)

lemma rc4Ksa_forall_lt (key : List Nat) : ∀ x ∈ rc4Ksa key, x < 256 := by
  unfold rc4Ksa
  exact ksaFold_forall_lt key (List.range 256) (List.range 256) 0
    (fun x hx => List.mem_range.mp hx)

lemma rc4Prga_involution : ∀ (p s : List Nat) (i j : Nat),
    rc4Prga s i j (rc4Prga s i j p) = p := by
  intro p
  induction p with
  | nil => intro s i j; rfl
  | cons a rest ih =>
    intro s i j
    simp only [rc4Prga]
    rw [Nat.xor_cancel_left, ih]

lemma rc4Prga_length : ∀ (p s : List Nat) (i j : Nat),
    (rc4Prga s i j p).length = p.length := by
  intro p
  induction p with
  | nil => intro s i j; rfl
  | cons a rest ih =>
    intro s i j
    simp only [rc4Prga, List.length_cons, ih]

lemma xor_ge_256_of_lt (ks p : Nat) (h1 : ks < 256) (h2 : 256 ≤ p) :
    256 ≤ ks ^^^ p := by
  by_contra h
  push_neg at h
  have e : (2 : Nat) ^ 8 = 256 := by norm_num
  have hx : ks ^^^ (ks ^^^ p) < 2 ^ 8 :=
    Nat.xor_lt_two_pow (by rw [e]; exact h1) (by rw [e]; exact h)
  rw [Nat.xor_cancel_left, e] at hx
  omega

lemma rc4Prga_out_of_range : ∀ (p s : List Nat) (i j idx : Nat),
    (∀ x ∈ s, x < 256) → idx < p.length → 256 ≤ p.getD idx 0 →
    256 ≤ (rc4Prga s i j p).getD idx 0 := by
  intro p
  induction p with
  | nil =>
    intro s i j idx _ h2 _
    simp at h2
  | cons a rest ih =>
    intro s i j idx hs hidx hval
    match idx with
    | 0 =>
      simp only [rc4Prga, List.getD_cons_zero] at hval ⊢
      exact xor_ge_256_of_lt _ _ (getD_lt_of_forall _ _ (listSwap_forall_lt _ _ hs)) hval
    | idx + 1 =>
      simp only [rc4Prga, List.getD_cons_succ] at hval ⊢
      exact ih _ _ _ idx (listSwap_forall_lt _ _ hs) (by simpa using hidx) hval

/-- C3: the stream cipher is an involution under a fixed non-empty key,
and each application preserves length. -/
theorem C3_rc4_round_trip (p k : List Nat) (hk : k ≠ []) :
    _rc4 (_rc4 p k) k = p ∧ (_rc4 p k).length = p.length :=
  ⟨rc4Prga_involution p (rc4Ksa k) 0 0, rc4Prga_length p (rc4Ksa k) 0 0⟩

/-- Witness for C3 at plaintext `[1, 2, 3]` and key `"y"` (`[121]`). -/
theorem C3_witness :
    ([121] : List Nat) ≠ [] ∧
    (_rc4 (_rc4 [1, 2, 3] [121]) [121] = [1, 2, 3] ∧
      (_rc4 [1, 2, 3] [121]).length = ([1, 2, 3] : List Nat).length) :=
  ⟨by decide, C3_rc4_round_trip [1, 2, 3] [121] (by decide)⟩

/-- C7 counterexample: on input `[300]` (character code above 255) with key
`"y"`, `_rc4` silently produces the output `[361]` incorporating the
out-of-range code — it neither rejects the input nor normalizes it to a
byte, contradicting the claim. -/
theorem C7_counterexample_silent_output :
    _rc4 [300] [121] = [361] ∧ ¬((_rc4 [300] [121]).getD 0 0 < 256) := by
  constructor
  · rfl
  · decide

/-- C7 (amended): the cipher neither rejects nor normalizes out-of-range
elements: it XORs a keystream byte (below 256) into the raw element code,
so any element at or above 256 yields an output element at or above 256
(and by C3 the value still round-trips). -/
theorem C7_rc4_out_of_range_flows_through (p k : List Nat) (i : Nat)
    (hk : k ≠ []) (hi : i < p.length) (hp : 256 ≤ p.getD i 0) :
    256 ≤ (_rc4 p k).getD i 0 :=
  rc4Prga_out_of_range p (rc4Ksa k) 0 0 i (rc4Ksa_forall_lt k) hi hp

/-- Witness for the amended C7 theorem at input `[300]`, key `"y"`. -/
theorem C7_witness :
    0 < ([300] : List Nat).length ∧ 256 ≤ ([300] : List Nat).getD 0 0 ∧
    256 ≤ (_rc4 [300] [121]).getD 0 0 :=
  ⟨by decide, by decide,
    C7_rc4_out_of_range_flows_through [300] [121] 0 (by decide) (by decide) (by decide)⟩

/-- C1: the SM3 hash engine matches the published reference vectors:
`sm3("abc")` is `66c7f0f4 62eeedd9 d1f2d46b dc10e4e2 4167c487 5cf2f7a2
297da02b 8f4ba8e0` and `sm3("abcd" * 16)` (64 bytes) is `debe9ff9 2275b8a1
38604889 c18e5a4d 6fdb70e5 387e5765 293dcba3 9c0c5732`. -/
theorem C1_sm3_reference_vectors :
    _sm3_hash [97, 98, 99] =
      [0x66, 0xc7, 0xf0, 0xf4, 0x62, 0xee, 0xed, 0xd9,
       0xd1, 0xf2, 0xd4, 0x6b, 0xdc, 0x10, 0xe4, 0xe2,
       0x41, 0x67, 0xc4, 0x87, 0x5c, 0xf2, 0xf7, 0xa2,
       0x29, 0x7d, 0xa0, 0x2b, 0x8f, 0x4b, 0xa8, 0xe0] ∧
    _sm3_hash ((List.replicate 16 [97, 98, 99, 100]).flatten) =
      [0xde, 0xbe, 0x9f, 0xf9, 0x22, 0x75, 0xb8, 0xa1,
       0x38, 0x60, 0x48, 0x89, 0xc1, 0x8e, 0x5a, 0x4d,
       0x6f, 0xdb, 0x70, 0xe5, 0x38, 0x7e, 0x57, 0x65,
       0x29, 0x3d, 0xcb, 0xa3, 0x9c, 0x0c, 0x57, 0x32] := by
  constructor <;> rfl

lemma mrcTable_getD_lt (i : Nat) : _MRC_TABLE.getD i 0 < 4294967296 := by
  by_cases h : i < 256
  · have hb : ∀ j, j < 256 → _MRC_TABLE.getD j 0 < 4294967296 := by decide
    exact hb i h
  · rw [List.getD_eq_default _ _ (by simp [_MRC_TABLE]; omega)]
    norm_num

lemma _rws_range (o : Int) : 0 ≤ _rws o 8 ∧ _rws o 8 < 16777216 := by
  unfold _rws
  rw [Nat.shiftRight_eq_div_pow]
  have h1 : 0 ≤ o % 4294967296 := Int.emod_nonneg o (by norm_num)
  have h2 : o % 4294967296 < 4294967296 := Int.emod_lt_of_pos o (by norm_num)
  have e8 : (2 : Nat) ^ 8 = 256 := by norm_num
  rw [e8]
  omega

lemma pyXor_nonneg_eq (a b : Int) (ha : 0 ≤ a) (hb : 0 ≤ b) :
    pyXor a b = ((a.toNat ^^^ b.toNat : Nat) : Int) := by
  unfold pyXor
  rw [if_pos ha, if_pos hb]

lemma pyXor_nonneg_neg (a b : Int) (ha : 0 ≤ a) (hb : b < 0) :
    pyXor a b = pyNot ((a.toNat ^^^ (pyNot b).toNat : Nat) : Int) := by
  unfold pyXor
  rw [if_pos ha, if_neg (by omega)]

lemma pyXor_neg_nonneg (a b : Int) (ha : a < 0) (hb : 0 ≤ b) :
    pyXor a b = pyNot (((pyNot a).toNat ^^^ b.toNat : Nat) : Int) := by
  unfold pyXor
  rw [if_neg (by omega), if_pos hb]

lemma mrcStep_range (e : List Nat) (o : Int) (n : Nat) :
    0 ≤ mrcStep e o n ∧ mrcStep e o n < 4294967296 := by
  unfold mrcStep
  have hrws := _rws_range o
  have htlt := mrcTable_getD_lt ((pyAnd o 255).toNat ^^^ e.getD n 0)
  rw [pyXor_nonneg_eq _ _ (by omega) hrws.1]
  simp only [Int.toNat_natCast]
  have e32 : (2 : Nat) ^ 32 = 4294967296 := by norm_num
  have hx := Nat.xor_lt_two_pow
    (x := _MRC_TABLE.getD ((pyAnd o 255).toNat ^^^ e.getD n 0) 0)
    (y := (_rws o 8).toNat) (n := 32) (by omega) (by omega)
  rw [e32] at hx
  omega

lemma mrcFold_range (e : List Nat) : ∀ (l : List Nat) (o : Int),
    (0 ≤ o ∧ o < 4294967296) ∨ l ≠ [] →
    0 ≤ l.foldl (mrcStep e) o ∧ l.foldl (mrcStep e) o < 4294967296 := by
  intro l
  induction l with
  | nil =>
    intro o h
    rcases h with h | h
    · exact h
    · exact absurd rfl h
  | cons a l ih =>
    intro o _
    simp only [List.foldl_cons]
    exact ih (mrcStep e o a) (Or.inl (mrcStep_range e o a))

lemma mrcAcc_range (e : List Nat) : 0 ≤ mrcAcc e ∧ mrcAcc e < 4294967296 := by
  unfold mrcAcc
  exact mrcFold_range e (List.range 57) (-1) (Or.inr (by simp))

lemma mrc_final_range (o : Int) (h1 : 0 ≤ o) (h2 : o < 4294967296) :
    -4294967296 ≤ pyXor (pyXor o (-1)) 3988292384 ∧
    pyXor (pyXor o (-1)) 3988292384 ≤ -1 := by
  have e1 : pyXor o (-1) = -o - 1 := by
    rw [pyXor_nonneg_neg o (-1) h1 (by norm_num)]
    have hn : pyNot (-1) = 0 := by norm_num [pyNot]
    rw [hn]
    simp [pyNot, Int.toNat_of_nonneg h1]
  rw [e1, pyXor_neg_nonneg _ _ (by omega) (by norm_num)]
  have e2 : pyNot (-o - 1) = o := by
    unfold pyNot
    ring
  rw [e2]
  have ht : (3988292384 : Int).toNat = 3988292384 := rfl
  rw [ht]
  have e32 : (2 : Nat) ^ 32 = 4294967296 := by norm_num
  have hx := Nat.xor_lt_two_pow (x := o.toNat) (y := 3988292384) (n := 32)
    (by omega) (by omega)
  rw [e32] at hx
  unfold pyNot
  omega

/-- C4 counterexample: on the 57-character input of 56 `"0"` characters
followed by the character of code 2, `_mrc` returns `-3985382901`, which
lies below `-2^31` (so the result is not a signed 32-bit value as
claimed), and differs from the spec-stated final transform that XORs
`0xED59B63A`. -/
theorem C4_counterexample_range_and_constant :
    (List.replicate 56 48 ++ [2] : List Nat).length = 57 ∧
    _mrc (List.replicate 56 48 ++ [2]) = -3985382901 ∧
    _mrc (List.replicate 56 48 ++ [2]) < -2147483648 ∧
    _mrc (List.replicate 56 48 ++ [2]) ≠ mrcClaimed (List.replicate 56 48 ++ [2]) := by
  refine ⟨by decide, by decide, by decide, by decide⟩

/-- C4 (amended): for every 57-character input over byte-valued character
codes, `_mrc` accumulates through the standard CRC-32 table and applies
the final transform `result XOR -1 XOR 0xEDB88320` (3988292384, not
0xED59B63A as the spec states), returning an integer in `[-2^32, -1]`
(not in `[-2^31, 2^31 - 1]`). -/
theorem C4_mrc_final_transform_and_range (e : List Nat)
    (h1 : e.length = 57) (h2 : ∀ c ∈ e, c < 256) :
    _mrc e = pyXor (pyXor (mrcAcc e) (-1)) 3988292384 ∧
    -4294967296 ≤ _mrc e ∧ _mrc e ≤ -1 :=
  ⟨rfl, (mrc_final_range _ (mrcAcc_range e).1 (mrcAcc_range e).2).1,
    (mrc_final_range _ (mrcAcc_range e).1 (mrcAcc_range e).2).2⟩

/-- Witness for the amended C4 theorem at the input of 57 `"a"` characters. -/
theorem C4_witness :
    (List.replicate 57 97 : List Nat).length = 57 ∧
    -4294967296 ≤ _mrc (List.replicate 57 97) ∧ _mrc (List.replicate 57 97) ≤ -1 :=
  ⟨by decide,
    (C4_mrc_final_transform_and_range (List.replicate 57 97) (by decide)
      (by decide)).2⟩

theorem customB64Core_length (table : List Nat) : (s : List Nat) →
    (customB64Core table s).length =
      4 * (s.length / 3) + (if s.length % 3 = 0 then 0 else s.length % 3 + 1)
  | [] => rfl
  | [_] => by simp [customB64Core]
  | [_, _] => by simp [customB64Core]
  | x :: y :: z :: rest => by
    have ih := customB64Core_length table rest
    simp only [customB64Core, List.length_cons, ih]
    by_cases h : rest.length % 3 = 0
    · rw [if_pos h, if_pos (by omega : (rest.length + 1 + 1 + 1) % 3 = 0)]
      omega
    · rw [if_neg h, if_neg (by omega : ¬(rest.length + 1 + 1 + 1) % 3 = 0)]
      omega

lemma _rc4_length (p k : List Nat) : (_rc4 p k).length = p.length :=
  rc4Prga_length p (rc4Ksa k) 0 0

lemma custom_b64_length_121 (s table : List Nat) (h : s.length = 121) :
    (_custom_b64 s table).length = 164 := by
  unfold _custom_b64
  simp only [List.length_append, List.length_replicate, customB64Core_length, h]
  decide

lemma abogusBuffer_length (pc mc uc : List Nat) (st et : Nat) :
    (abogusBuffer pc mc uc st et).length = 109 := by
  rfl

/-- C10 (amended): for every query string, user agent, method, clock
reading and random draw, the Protocol A signer returns a signature of
exactly 164 characters (including its trailing `==`): the encoded buffer
is 12 magic characters + the 44-entry record + the 64-character browser
fingerprint + 1 checksum = 121 elements, expanded 3-to-4 by the custom
base64 (the claim counts a 67-character fingerprint and predicts 168). -/
theorem C10_abogus_signature_length (ua params method : List Nat)
    (startTime endTime n1 n2 n3 : Nat) :
    (abogus_sign ua params method startTime endTime n1 n2 n3).length = 164 := by
  unfold abogus_sign
  apply custom_b64_length_121
  rw [List.length_append, _rc4_length, abogusBuffer_length]
  rfl

/-- C10 counterexample: at concrete inputs the signature has 164
characters, not the 168 the claim states. -/
theorem C10_counterexample_length_not_168 :
    (abogus_sign [] [] [] 0 0 0 0 0).length ≠ 168 := by
  have h : (abogus_sign [] [] [] 0 0 0 0 0).length = 164 := by
    unfold abogus_sign
    apply custom_b64_length_121
    rw [List.length_append, _rc4_length, abogusBuffer_length]
    rfl
  omega

lemma xhsTable_getD_mem (i : Nat) (h : i ≤ 64) :
    _XHS_H_TABLE.getD i 0 ∈ _XHS_H_TABLE := by
  have hl : _XHS_H_TABLE.length = 65 := rfl
  rw [List.getD_eq_getElem _ _ (by omega)]
  exact List.getElem_mem _

lemma xhsHG_mem (o g h : Nat) (ho : o ≤ 102) (hg : g ≤ 102) (hh : h ≤ 102) :
    ∀ c ∈ xhsHG o g h, c ∈ _XHS_H_TABLE := by
  have e2 : (2 : Nat) ^ 2 = 4 := rfl
  have e4 : (2 : Nat) ^ 4 = 16 := rfl
  have e6 : (2 : Nat) ^ 6 = 64 := rfl
  have hv : o >>> 2 ≤ 64 := by
    rw [Nat.shiftRight_eq_div_pow, e2]
    omega
  have hx : ((o &&& 3) <<< 4) ||| (g >>> 4) ≤ 64 := by
    have h1 : o &&& 3 = o % 4 := Nat.and_pow_two_sub_one_eq_mod o 2
    have h2 : g >>> 4 = g / 16 := by rw [Nat.shiftRight_eq_div_pow, e4]
    have := Nat.or_lt_two_pow (x := (o &&& 3) <<< 4) (y := g >>> 4) (n := 6)
      (by rw [Nat.shiftLeft_eq, h1, e4, e6]; omega) (by rw [h2, e6]; omega)
    rw [e6] at this
    omega
  have hp : (if g = 0 then 64 else ((15 &&& g) <<< 2) ||| (h >>> 6)) ≤ 64 := by
    split
    · omega
    · have h1 : 15 &&& g = g % 16 := by
        rw [Nat.and_comm]
        exact Nat.and_pow_two_sub_one_eq_mod g 4
      have h2 : h >>> 6 = h / 64 := by rw [Nat.shiftRight_eq_div_pow, e6]
      have := Nat.or_lt_two_pow (x := (15 &&& g) <<< 2) (y := h >>> 6) (n := 6)
        (by rw [Nat.shiftLeft_eq, h1, e2, e6]; omega) (by rw [h2, e6]; omega)
      rw [e6] at this
      omega
  have hb : (if g = 0 then 64 else if h ≠ 0 then h &&& 63 else 64) ≤ 64 := by
    split
    · omega
    · split
      · have h1 : h &&& 63 = h % 64 := Nat.and_pow_two_sub_one_eq_mod h 6
        omega
      · omega
  intro c hc
  simp only [xhsHG, List.mem_cons, List.not_mem_nil, or_false] at hc
  rcases hc with rfl | rfl | rfl | rfl
  · exact xhsTable_getD_mem _ hv
  · exact xhsTable_getD_mem _ hx
  · exact xhsTable_getD_mem _ hp
  · exact xhsTable_getD_mem _ hb

lemma hex_getD_le (n : List Nat) (h2 : ∀ c ∈ n, c ∈ hexLowerCodes) (j : Nat) :
    n.getD j 0 ≤ 102 := by
  by_cases hj : j < n.length
  · rw [List.getD_eq_getElem _ _ hj]
    have hm := h2 _ (List.getElem_mem hj)
    have hle : ∀ c ∈ hexLowerCodes, c ≤ 102 := by decide
    exact hle _ hm
  · rw [List.getD_eq_default _ _ (by omega)]
    omega

lemma xhsHGroup_mem (n : List Nat) (i : Nat)
    (h2 : ∀ c ∈ n, c ∈ hexLowerCodes) :
    ∀ c ∈ xhsHGroup n i, c ∈ _XHS_H_TABLE := by
  unfold xhsHGroup
  apply xhsHG_mem
  · exact hex_getD_le n h2 i
  · split
    · exact hex_getD_le n h2 (i + 1)
    · omega
  · split
    · exact hex_getD_le n h2 (i + 2)
    · omega

lemma xhs_h_length (n : List Nat) : (_xhs_h n).length = 44 := by
  unfold _xhs_h
  rw [List.length_flatten, List.map_map]
  have he : (List.length ∘ fun k => xhsHGroup n (3 * k)) = fun _ => 4 := by
    funext k
    rfl
  rw [he]
  decide

lemma xhs_h_mem (n : List Nat) (h2 : ∀ c ∈ n, c ∈ hexLowerCodes) :
    ∀ c ∈ _xhs_h n, c ∈ _XHS_H_TABLE := by
  intro c hc
  unfold _xhs_h at hc
  simp only [List.mem_flatten, List.mem_map] at hc
  obtain ⟨l, ⟨k, _, rfl⟩, hcl⟩ := hc
  exact xhsHGroup_mem n (3 * k) h2 c hcl

/-- C6: for every 32-character lowercase-hex digest string, `_xhs_h`
returns exactly 44 characters, each drawn from its 65-symbol alphabet
table (eleven 3-character groups over offsets 0, 3, ..., 30, the last
synthesized from only 2 characters). -/
theorem C6_xhs_h_length_and_alphabet (n : List Nat) (h1 : n.length = 32)
    (h2 : ∀ c ∈ n, c ∈ hexLowerCodes) :
    (_xhs_h n).length = 44 ∧ ∀ c ∈ _xhs_h n, c ∈ _XHS_H_TABLE :=
  ⟨xhs_h_length n, xhs_h_mem n h2⟩

/-- Witness for C6 at the digest `0123456789abcdef0123456789abcdef`. -/
theorem C6_witness :
    ([48, 49, 50, 51, 52, 53, 54, 55, 56, 57, 97, 98, 99, 100, 101, 102,
      48, 49, 50, 51, 52, 53, 54, 55, 56, 57, 97, 98, 99, 100, 101, 102] :
        List Nat).length = 32 ∧
    ((_xhs_h [48, 49, 50, 51, 52, 53, 54, 55, 56, 57, 97, 98, 99, 100, 101, 102,
      48, 49, 50, 51, 52, 53, 54, 55, 56, 57, 97, 98, 99, 100, 101, 102]).length = 44 ∧
      ∀ c ∈ _xhs_h [48, 49, 50, 51, 52, 53, 54, 55, 56, 57, 97, 98, 99, 100, 101, 102,
        48, 49, 50, 51, 52, 53, 54, 55, 56, 57, 97, 98, 99, 100, 101, 102],
        c ∈ _XHS_H_TABLE) :=
  ⟨by decide,
    C6_xhs_h_length_and_alphabet _ (by decide) (by decide)⟩

lemma b36go_decode : ∀ (fuel n : Nat), n ≤ fuel →
    b36Decode (b36go fuel n) = n := by
  intro fuel
  induction fuel with
  | zero =>
    intro n hn
    have : n = 0 := by omega
    subst this
    rfl
  | succ fuel ih =>
    intro n hn
    match n with
    | 0 => rfl
    | m + 1 =>
      unfold b36go b36Decode
      rw [List.foldl_append]
      have hidx : ∀ i, i < 36 →
          B36_ALPHABET.indexOf (B36_ALPHABET.getD i 0) = i := by decide
      have hdec := ih ((m + 1) / 36) (by omega)
      unfold b36Decode at hdec
      simp only [List.foldl_cons, List.foldl_nil]
      rw [hdec, hidx _ (by omega)]
      omega

lemma searchId_decode (ms t : Nat) :
    b36Decode (get_xhs_search_id ms t) = (ms <<< 64) + t := by
  unfold get_xhs_search_id
  split
  · rename_i h
    rw [h]
    rfl
  · exact b36go_decode _ _ le_rfl

/-- C9 counterexample: two calls at the same (non-decreasing) timestamp 0
with random draws 1 then 0 decode to 1 and then 0 — the decoded values
decrease, contradicting the claim. -/
theorem C9_counterexample_equal_timestamps :
    ¬ (b36Decode (get_xhs_search_id 0 0) ≥ b36Decode (get_xhs_search_id 0 1)) := by
  decide

/-- C9 (amended): decoding the returned base-36 string gives exactly
`(ms << 64) + t`, so the decoded values are non-decreasing (in fact
strictly increasing) for calls at strictly increasing millisecond
timestamps, for any random draws in `[0, 2147483646]`; with equal
timestamps the order can invert depending on the draws. -/
theorem C9_search_id_monotone (ms1 ms2 t1 t2 : Nat)
    (hms : ms1 < ms2) (ht1 : t1 ≤ 2147483646) :
    b36Decode (get_xhs_search_id ms1 t1) ≤ b36Decode (get_xhs_search_id ms2 t2) := by
  rw [searchId_decode, searchId_decode, Nat.shiftLeft_eq, Nat.shiftLeft_eq]
  have e : (2 : Nat) ^ 64 = 18446744073709551616 := by norm_num
  rw [e]
  omega

/-- Witness for the amended C9 theorem at timestamps 0 < 1, draws 5 and 0. -/
theorem C9_witness :
    (0 : Nat) < 1 ∧ (5 : Nat) ≤ 2147483646 ∧
    b36Decode (get_xhs_search_id 0 5) ≤ b36Decode (get_xhs_search_id 1 0) :=
  ⟨by decide, by decide, C9_search_id_monotone 0 1 5 0 (by decide) (by decide)⟩

/-- MD5 sanity check against the RFC 1321 test vectors for `""` and
`"abc"`. -/
theorem md5_reference_vectors :
    md5Hex [] = [100, 52, 49, 100, 56, 99, 100, 57, 56, 102, 48, 48, 98, 50, 48,
      52, 101, 57, 56, 48, 48, 57, 57, 56, 101, 99, 102, 56, 52, 50, 55, 101] ∧
    md5Hex [97, 98, 99] = [57, 48, 48, 49, 53, 48, 57, 56, 51, 99, 100, 50, 52,
      102, 98, 48, 100, 54, 57, 54, 51, 102, 55, 100, 50, 56, 101, 49, 55, 102, 55, 50] := by
  constructor <;> rfl

/-- C8 counterexample: with the clock reading 0 and the random draw of 30
`"a"` characters, the untruncated string has only 46 characters
(1 hex digit + 30 + 5 + a 10-digit checksum), so the device token is 46
characters long, not 52. -/
theorem C8_counterexample_short_token :
    (get_xhs_cookies 0 (List.replicate 30 97)).1.length = 46 ∧
    (get_xhs_cookies 0 (List.replicate 30 97)).1.length ≠ 52 := by
  constructor
  · rfl
  · decide

/-- C8 (amended): the session id is always the lowercase hex MD5 digest of
the device token, and the token length is `min 52 (len(hex ms) + 35 +
len(str(crc32 d)))` — equal to 52 exactly when the untruncated string
reaches 52 characters (true for 11-hex-digit clock readings with a
checksum of at least 10^6, but not for every clock reading and random
outcome). -/
theorem C8_cookie_token_and_session (ms : Nat) (randChars : List Nat)
    (h : randChars.length = 30) :
    (get_xhs_cookies ms randChars).2 = md5Hex (get_xhs_cookies ms randChars).1 ∧
    (get_xhs_cookies ms randChars).1.length =
      min 52 ((natHex ms).length + 35 +
        (natDecimal (crc32 (xhsCookieD ms randChars))).length) := by
  constructor
  · rfl
  · show (xhsCookieToken ms randChars).length = _
    unfold xhsCookieToken xhsCookieD
    rw [List.length_take]
    simp only [List.length_append, List.length_cons, List.length_nil]
    omega

/-- Witness for the amended C8 theorem at clock reading 1700000000000. -/
theorem C8_witness :
    (List.replicate 30 97 : List Nat).length = 30 ∧
    ((get_xhs_cookies 1700000000000 (List.replicate 30 97)).2 =
      md5Hex (get_xhs_cookies 1700000000000 (List.replicate 30 97)).1 ∧
    (get_xhs_cookies 1700000000000 (List.replicate 30 97)).1.length =
      min 52 ((natHex 1700000000000).length + 35 +
        (natDecimal (crc32 (xhsCookieD 1700000000000 (List.replicate 30 97)))).length)) :=
  ⟨by decide, C8_cookie_token_and_session 1700000000000 (List.replicate 30 97) (by decide)⟩

lemma and_shiftLeft_mask (x m k : Nat) : x &&& (m <<< k) = ((x >>> k) &&& m) <<< k := by
  apply Nat.eq_of_testBit_eq
  intro i
  simp only [Nat.testBit_and, Nat.testBit_shiftLeft, Nat.testBit_shiftRight]
  by_cases hk : k ≤ i
  · simp [hk, Nat.add_sub_cancel' hk]
  · simp [hk]

lemma and63_eq (x : Nat) : x &&& 63 = x % 64 := by
  have h := Nat.and_pow_two_sub_one_eq_mod x 6
  norm_num at h
  exact h

lemma and63_left (x : Nat) : 63 &&& x = x % 64 := by
  rw [Nat.and_comm]
  exact and63_eq x

lemma and15_eq (x : Nat) : x &&& 15 = x % 16 := by
  have h := Nat.and_pow_two_sub_one_eq_mod x 4
  norm_num at h
  exact h

lemma and255_eq (x : Nat) : x &&& 255 = x % 256 := by
  have h := Nat.and_pow_two_sub_one_eq_mod x 8
  norm_num at h
  exact h

lemma mask_hi (b1 : Nat) (h : b1 < 256) : 16711680 &&& (b1 <<< 16) = b1 * 65536 := by
  rw [Nat.and_comm]
  have e : (16711680 : Nat) = 255 <<< 16 := rfl
  rw [e, and_shiftLeft_mask]
  have e1 : (b1 <<< 16) >>> 16 = b1 := by
    rw [Nat.shiftLeft_eq, Nat.shiftRight_eq_div_pow]
    exact Nat.mul_div_cancel _ (by norm_num)
  rw [e1]
  have e2 : b1 &&& 255 = b1 := by
    rw [and255_eq]
    omega
  rw [e2, Nat.shiftLeft_eq]

lemma mask_mid (b2 : Nat) (h : b2 < 256) : (b2 <<< 8) &&& 65280 = b2 * 256 := by
  have e : (65280 : Nat) = 255 <<< 8 := rfl
  rw [e, and_shiftLeft_mask]
  have e1 : (b2 <<< 8) >>> 8 = b2 := by
    rw [Nat.shiftLeft_eq, Nat.shiftRight_eq_div_pow]
    exact Nat.mul_div_cancel _ (by norm_num)
  rw [e1]
  have e2 : b2 &&& 255 = b2 := by
    rw [and255_eq]
    omega
  rw [e2, Nat.shiftLeft_eq]

lemma n_triple (b1 b2 b3 : Nat) (h1 : b1 < 256) (h2 : b2 < 256) (h3 : b3 < 256) :
    (16711680 &&& (b1 <<< 16)) + ((b2 <<< 8) &&& 65280) + (b3 &&& 255)
      = b1 * 65536 + b2 * 256 + b3 := by
  rw [mask_hi b1 h1, mask_mid b2 h2, and255_eq]
  omega

lemma xhsB64Table_idx (i : Nat) (h : i < 64) :
    xhsB64Idx (_XHS_B64_TABLE.getD i 0) = i := by
  have hb : ∀ j, j < 64 → xhsB64Idx (_XHS_B64_TABLE.getD j 0) = j := by decide
  exact hb i h

lemma xhsB64Table_ne_61 (i : Nat) (h : i < 64) :
    _XHS_B64_TABLE.getD i 0 ≠ 61 := by
  have hb : ∀ j, j < 64 → _XHS_B64_TABLE.getD j 0 ≠ 61 := by decide
  exact hb i h

lemma decode_cons_full (c1 c2 c3 c4 : Nat) (l : List Nat)
    (h3 : c3 ≠ 61) (h4 : c4 ≠ 61) :
    _xhs_b64_decode (c1 :: c2 :: c3 :: c4 :: l) =
      (xhsB64Idx c1 * 4 + xhsB64Idx c2 / 16) ::
      ((xhsB64Idx c2 % 16) * 16 + xhsB64Idx c3 / 4) ::
      ((xhsB64Idx c3 % 4) * 64 + xhsB64Idx c4) :: _xhs_b64_decode l := by
  conv_lhs => unfold _xhs_b64_decode
  rw [if_neg h3, if_neg h4]

theorem xhs_b64_roundtrip : (e : List Nat) → (∀ b ∈ e, b < 256) →
    _xhs_b64_decode (_xhs_b64_encode e) = e
  | [], _ => rfl
  | [b], h => by
    have hb : b < 256 := h b (by simp)
    show _xhs_b64_decode [_XHS_B64_TABLE.getD (b >>> 2) 0,
      _XHS_B64_TABLE.getD ((b <<< 4) &&& 63) 0, 61, 61] = [b]
    have h1 : b >>> 2 < 64 := by
      rw [Nat.shiftRight_eq_div_pow]
      norm_num
      omega
    have h2 : (b <<< 4) &&& 63 < 64 := by
      rw [and63_eq]
      omega
    unfold _xhs_b64_decode
    rw [if_pos rfl, xhsB64Table_idx _ h1, xhsB64Table_idx _ h2]
    simp only [List.cons.injEq, and_true]
    simp only [and63_eq, and63_left, Nat.shiftLeft_eq, Nat.shiftRight_eq_div_pow]
    norm_num
    omega
  | [b1, b2], h => by
    have hb1 : b1 < 256 := h b1 (by simp)
    have hb2 : b2 < 256 := h b2 (by simp)
    show _xhs_b64_decode [_XHS_B64_TABLE.getD (((b1 <<< 8) + b2) >>> 10) 0,
      _XHS_B64_TABLE.getD (63 &&& (((b1 <<< 8) + b2) >>> 4)) 0,
      _XHS_B64_TABLE.getD ((((b1 <<< 8) + b2) <<< 2) &&& 63) 0, 61] = [b1, b2]
    have hF : (b1 <<< 8) + b2 = b1 * 256 + b2 := by
      rw [Nat.shiftLeft_eq]
    rw [hF]
    have h1 : (b1 * 256 + b2) >>> 10 < 64 := by
      rw [Nat.shiftRight_eq_div_pow]
      norm_num
      omega
    have h2 : 63 &&& ((b1 * 256 + b2) >>> 4) < 64 := by
      rw [Nat.and_comm, and63_eq]
      omega
    have h3 : ((b1 * 256 + b2) <<< 2) &&& 63 < 64 := by
      rw [and63_eq]
      omega
    unfold _xhs_b64_decode
    rw [if_neg (xhsB64Table_ne_61 _ h3), if_pos rfl]
    rw [xhsB64Table_idx _ h1, xhsB64Table_idx _ h2, xhsB64Table_idx _ h3]
    simp only [List.cons.injEq, and_true]
    simp only [and63_eq, and63_left, Nat.shiftLeft_eq, Nat.shiftRight_eq_div_pow]
    norm_num
    omega
  | b1 :: b2 :: b3 :: rest, h => by
    have hb1 : b1 < 256 := h b1 (by simp)
    have hb2 : b2 < 256 := h b2 (by simp)
    have hb3 : b3 < 256 := h b3 (by simp)
    have ih := xhs_b64_roundtrip rest (fun x hx => h x (by simp [hx]))
    show _xhs_b64_decode (_ :: _ :: _ :: _ :: _xhs_b64_encode rest) = _
    rw [n_triple b1 b2 b3 hb1 hb2 hb3]
    have h1 : 63 &&& ((b1 * 65536 + b2 * 256 + b3) >>> 18) < 64 := by
      rw [Nat.and_comm, and63_eq]
      omega
    have h2 : 63 &&& ((b1 * 65536 + b2 * 256 + b3) >>> 12) < 64 := by
      rw [Nat.and_comm, and63_eq]
      omega
    have h3 : ((b1 * 65536 + b2 * 256 + b3) >>> 6) &&& 63 < 64 := by
      rw [and63_eq]
      omega
    have h4 : (b1 * 65536 + b2 * 256 + b3) &&& 63 < 64 := by
      rw [and63_eq]
      omega
    rw [decode_cons_full _ _ _ _ _ (xhsB64Table_ne_61 _ h3) (xhsB64Table_ne_61 _ h4)]
    rw [xhsB64Table_idx _ h1, xhsB64Table_idx _ h2, xhsB64Table_idx _ h3,
      xhsB64Table_idx _ h4, ih]
    simp only [List.cons.injEq, and_true]
    simp only [and63_eq, and63_left, Nat.shiftRight_eq_div_pow]
    norm_num
    omega

lemma walk_cons_ne (c : Nat) (l : List Nat) (hc : c ≠ 37) :
    encodeUtf8Walk (c :: l) = c :: encodeUtf8Walk l := by
  conv_lhs => unfold encodeUtf8Walk
  rw [if_neg hc]

lemma walk_escape (h1 h2 : Nat) (l : List Nat) :
    encodeUtf8Walk (37 :: h1 :: h2 :: l) =
      (hexVal h1 * 16 + hexVal h2) :: encodeUtf8Walk l := by
  conv_lhs => unfold encodeUtf8Walk
  rw [if_pos rfl]

lemma hexPair_roundtrip : ∀ c, c < 256 →
    hexVal (hexUpperCodes.getD ((c >>> 4) &&& 15) 0) * 16 +
      hexVal (hexUpperCodes.getD (c &&& 15) 0) = c := by decide

lemma safe_ne_37 : ∀ c ∈ XHS_SAFE_CODES, c ≠ 37 := by decide

lemma encode_utf8_id (s : List Nat) : (∀ c ∈ s, c < 256) → _encode_utf8 s = s := by
  unfold _encode_utf8
  induction s with
  | nil => intro _; rfl
  | cons c rest ih =>
    intro hs
    have hc : c < 256 := hs c (List.mem_cons_self c rest)
    have hrest : ∀ x ∈ rest, x < 256 := fun x hx => hs x (List.mem_cons_of_mem c hx)
    have hq : _quote (c :: rest) = quoteChar c ++ _quote rest := by
      unfold _quote
      simp
    rw [hq]
    by_cases hsafe : c ∈ XHS_SAFE_CODES
    · rw [show quoteChar c = [c] from by simp [quoteChar, hsafe]]
      show encodeUtf8Walk (c :: _quote rest) = c :: rest
      rw [walk_cons_ne c _ (safe_ne_37 c hsafe), ih hrest]
    · rw [show quoteChar c = [37, hexUpperCodes.getD ((c >>> 4) &&& 15) 0,
        hexUpperCodes.getD (c &&& 15) 0] from by simp [quoteChar, hsafe]]
      show encodeUtf8Walk (37 :: hexUpperCodes.getD ((c >>> 4) &&& 15) 0 ::
        hexUpperCodes.getD (c &&& 15) 0 :: _quote rest) = c :: rest
      rw [walk_escape, hexPair_roundtrip c hc, ih hrest]

lemma natDecGo_lt (fuel : Nat) : ∀ n c, c ∈ natDecGo fuel n → c < 128 := by
  induction fuel with
  | zero =>
    intro n c hc
    simp [natDecGo] at hc
  | succ fuel ih =>
    intro n c hc
    cases n with
    | zero => simp [natDecGo] at hc
    | succ m =>
      simp only [natDecGo, List.mem_append, List.mem_singleton] at hc
      rcases hc with hc | rfl
      · exact ih _ _ hc
      · omega

lemma natDecimal_lt (n : Nat) : ∀ c ∈ natDecimal n, c < 128 := by
  unfold natDecimal
  split
  · intro c hc
    simp at hc
    omega
  · exact fun c hc => natDecGo_lt n n c hc

lemma intDecimal_lt (i : Int) : ∀ c ∈ intDecimal i, c < 128 := by
  unfold intDecimal
  split
  · intro c hc
    rcases List.mem_cons.mp hc with rfl | hc
    · omega
    · exact natDecimal_lt _ c hc
  · exact fun c hc => natDecimal_lt _ c hc

lemma md5Hex_mem (m : List Nat) : ∀ c ∈ md5Hex m, c ∈ hexLowerCodes := by
  intro c hc
  unfold md5Hex at hc
  simp only [List.mem_flatten, List.mem_map] at hc
  obtain ⟨l, ⟨b, _, rfl⟩, hcl⟩ := hc
  have h16 : hexLowerCodes.length = 16 := rfl
  simp only [List.mem_cons, List.not_mem_nil, or_false] at hcl
  rcases hcl with rfl | rfl
  · rw [List.getD_eq_getElem _ _ (show (b >>> 4) &&& 15 < hexLowerCodes.length by
      rw [h16, and15_eq]; omega)]
    exact List.getElem_mem _
  · rw [List.getD_eq_getElem _ _ (show b &&& 15 < hexLowerCodes.length by
      rw [h16, and15_eq]; omega)]
    exact List.getElem_mem _

lemma xhsCommonJson_lt (xt xs : List Nat) (hxt : ∀ c ∈ xt, c < 128)
    (hxs : ∀ c ∈ xs, c < 128) : ∀ c ∈ xhsCommonJson xt xs, c < 128 := by
  intro c hc
  unfold xhsCommonJson at hc
  simp only [List.mem_append] at hc
  have hh : ∀ c ∈ JSON_HEAD, c < 128 := by decide
  have hm1 : ∀ c ∈ JSON_MID1, c < 128 := by decide
  have hm2 : ∀ c ∈ JSON_MID2, c < 128 := by decide
  have ht : ∀ c ∈ JSON_TAIL, c < 128 := by decide
  rcases hc with ((((((hc | hc) | hc) | hc) | hc) | hc) | hc)
  exacts [hh c hc, hxt c hc, hm1 c hc, hxs c hc, hm2 c hc,
    intDecimal_lt _ c hc, ht c hc]

/-- C5: for the Protocol B signer with a fixed clock reading `T`, uri
`/api/sns/web/v1/feed` and no body (and empty `a1`, `b1`): `x-t` is
exactly the decimal rendering of `T`; `x-s` has exactly 44 characters;
and reversing the byte-to-percent-encoding step and the custom base64 of
`x-s-common` recovers the compact JSON record, whose `x9` field (opened
by the `"x9":` segment at the end of `JSON_MID2`) is exactly
`_mrc(x_t + x_s)`. -/
theorem C5_sign_xiaohongshu_record (v : Nat) :
    (sign_xiaohongshu v).2.1 = natDecimal v ∧
    (sign_xiaohongshu v).1.length = 44 ∧
    _xhs_b64_decode ((sign_xiaohongshu v).2.2) =
      JSON_HEAD ++ natDecimal v ++ JSON_MID1 ++ (sign_xiaohongshu v).1 ++
        JSON_MID2 ++ intDecimal (_mrc (natDecimal v ++ (sign_xiaohongshu v).1)) ++
        JSON_TAIL := by
  refine ⟨rfl, xhs_h_length _, ?_⟩
  show _xhs_b64_decode (xhs_common v) = _
  have hxs : ∀ c ∈ xhs_xs v, c < 128 := by
    intro c hc
    have hm := xhs_h_mem _ (md5Hex_mem _) c hc
    have hlt : ∀ c ∈ _XHS_H_TABLE, c < 128 := by decide
    exact hlt c hm
  have hjson := xhsCommonJson_lt (natDecimal v) (xhs_xs v) (natDecimal_lt v) hxs
  unfold xhs_common
  rw [encode_utf8_id _ (fun c hc => by have := hjson c hc; omega)]
  rw [xhs_b64_roundtrip _ (fun c hc => by have := hjson c hc; omega)]
  rfl

end Clawkit
